import Mathlib

/-!
# Verification of the candlestick-plotter CSV data pipeline

Shallow embedding of the Rust sources of this repository:
`src/candle_stick_plotter/src/data_processor.rs` (record parser, sample
generator, candlestick converter, data processor),
`src/my_candle_stick_project/src/plotter.rs` (plot sink stub) and
`src/candle_stick_plotter/src/utils.rs` (directory utilities).

Modelling choices, stated once here:

* Rust `f64` fields are modelled as exact rationals (`Rat`).  `parseFloat?`
  follows the grammar of `f64::from_str` on finite decimal inputs and yields
  the exact decimal value; rounding to binary floating point, and the
  non-finite literals `inf`/`nan`, are outside the model.  Every numeric
  literal occurring in the repository and in the properties below is a short
  decimal for which this is faithful.
* chrono's `NaiveDateTime::parse_from_str(s, "%Y-%m-%d %H:%M:%S")` is modelled
  by `parseTimestamp`, including the lenience of chrono's parser: a numeric
  item consumes between 1 and `width` digits (`scan::number(s, 1, width)`),
  leading whitespace is skipped before every numeric item, a signed year with
  an explicit `+`/`-` may have arbitrarily many digits, the literal space in
  the format is an `Item::Space` matching zero or more whitespace characters,
  literals `-`/`:` must match exactly, trailing input is rejected, and the
  resolved calendar values are range-checked (`NaiveDate` years lie in
  `[-262144, 262143]`, i.e. `i32::MIN >> 13 .. i32::MAX >> 13`; a second of
  `60` is accepted as a leap second).
* `anyhow` errors are modelled by the topmost context string attached by this
  repository's code (`.context(...)`), which is what the error displays.
* The filesystem is modelled explicitly: for the CSV loader, a function from
  path to an optional already-read delimited file (header row plus data rows,
  each a list of raw field strings); for the directory utilities, a predicate
  of existing paths together with a creation-success oracle.
* Log output (`log::info!` / `log::debug!` / `log::warn!`) is modelled as an
  explicit list of emitted messages returned alongside the result.
-/

namespace CandleStickPlotter

/-- Numeric value of a digit string, most significant digit first. -/
def digitsVal (ds : List Char) : Nat :=
  ds.foldl (fun a c => 10 * a + (c.toNat - 48)) 0

/-- Greedily consume up to `w` leading decimal digits (chrono `scan::number`'s
digit consumption). -/
def takeDigits : Nat → List Char → List Char × List Char
  | 0, cs => ([], cs)
  | _ + 1, [] => ([], [])
  | n + 1, c :: cs =>
    if c.isDigit then
      let (ds, r) := takeDigits n cs
      (c :: ds, r)
    else ([], c :: cs)

/-- chrono `scan::number(s, 1, w)`: consume between 1 and `w` digits, greedily,
returning their value and the rest of the input; fails on no digit. -/
def scanNumber (w : Nat) (cs : List Char) : Option (Nat × List Char) :=
  let (ds, r) := takeDigits w cs
  if ds.isEmpty then none else some (digitsVal ds, r)

/-- Drop leading whitespace (Rust `str::trim_start`, restricted to the ASCII
whitespace Lean's `Char.isWhitespace` covers, which suffices for every string
this development evaluates). -/
def trimLeft (cs : List Char) : List Char := cs.dropWhile Char.isWhitespace

/-- Match one exact literal character (chrono `Item::Literal`). -/
def expectChar (c : Char) : List Char → Option (List Char)
  | [] => none
  | x :: xs => if x = c then some xs else none

/-- chrono numeric item of width 2 (`%m`, `%d`, `%H`, `%M`, `%S`): leading
whitespace is skipped, then 1 or 2 digits are consumed. -/
def scanNum2 (cs : List Char) : Option (Nat × List Char) :=
  scanNumber 2 (trimLeft cs)

/-- chrono numeric item `%Y`: leading whitespace skipped; with an explicit
sign the digit count is unbounded, without one at most 4 digits are taken. -/
def scanYear (cs0 : List Char) : Option (Int × List Char) :=
  let cs := trimLeft cs0
  match cs with
  | '-' :: r => (scanNumber r.length r).map fun p => (-(p.1 : Int), p.2)
  | '+' :: r => (scanNumber r.length r).map fun p => ((p.1 : Int), p.2)
  | _ => (scanNumber 4 cs).map fun p => ((p.1 : Int), p.2)

/-- Proleptic Gregorian leap year, as chrono computes it. -/
def isLeapYear (y : Int) : Bool :=
  y % 4 == 0 && (y % 100 != 0 || y % 400 == 0)

/-- Number of days of month `m` of year `y`. -/
def daysInMonth (y : Int) (m : Nat) : Nat :=
  if m = 2 then (if isLeapYear y then 29 else 28)
  else if m = 4 ∨ m = 6 ∨ m = 9 ∨ m = 11 then 30
  else 31

/-- Calendar datetime, the model of chrono's `DateTime<Utc>` as built by
`to_candlesticks` (the UTC offset attached by
`DateTime::from_naive_utc_and_offset` is always zero and carries no data). -/
structure Timestamp where
  year : Int
  month : Nat
  day : Nat
  hour : Nat
  minute : Nat
  second : Nat
  deriving DecidableEq, Repr

/-- Range checks performed by chrono when resolving parsed fields into a
`NaiveDateTime`: years within `NaiveDate`'s `[-262144, 262143]`, valid month,
day valid for the month, hour below 24, minute below 60, second at most 60
(60 is chrono's leap second). -/
def validTimestamp (t : Timestamp) : Bool :=
  decide (-262144 ≤ t.year) && decide (t.year ≤ 262143) &&
  decide (1 ≤ t.month) && decide (t.month ≤ 12) &&
  decide (1 ≤ t.day) && decide (t.day ≤ daysInMonth t.year t.month) &&
  decide (t.hour ≤ 23) && decide (t.minute ≤ 59) && decide (t.second ≤ 60)

/-- Model of `NaiveDateTime::parse_from_str(s, "%Y-%m-%d %H:%M:%S")` from
`DataProcessor::to_candlesticks`: the format items are
`%Y`, `-`, `%m`, `-`, `%d`, space, `%H`, `:`, `%M`, `:`, `%S`; any input left
after the last item is an error (`TOO_LONG`), and the parsed fields are then
range-checked.  `none` stands for any chrono `ParseError`. -/
def parseTimestamp (s : String) : Option Timestamp := do
  let cs := s.toList
  let (y, cs) ← scanYear cs
  let cs ← expectChar '-' cs
  let (mo, cs) ← scanNum2 cs
  let cs ← expectChar '-' cs
  let (d, cs) ← scanNum2 cs
  let cs := trimLeft cs
  let (h, cs) ← scanNum2 cs
  let cs ← expectChar ':' cs
  let (mi, cs) ← scanNum2 cs
  let cs ← expectChar ':' cs
  let (sec, cs) ← scanNum2 cs
  if cs.isEmpty then
    let t : Timestamp := ⟨y, mo, d, h, mi, sec⟩
    if validTimestamp t then some t else none
  else none

/-- Value of one decimal digit character. -/
def dv (c : Char) : Nat := c.toNat - 48

/-- Taken from the spec's words (§4.3): the exact canonical timestamp pattern
`YYYY-MM-DD HH:MM:SS` — 4-digit year, 2-digit month/day/hour/minute/second,
literal `-`, space and `:` separators, no extra or missing characters, and no
out-of-range component.  Kept separate from `parseTimestamp` (the model of the
code) so the two readings can be compared. -/
def matchesExactCanonicalPattern (s : String) : Bool :=
  match s.toList with
  | [y1, y2, y3, y4, '-', m1, m2, '-', d1, d2, ' ',
     h1, h2, ':', n1, n2, ':', s1, s2] =>
    [y1, y2, y3, y4, m1, m2, d1, d2, h1, h2, n1, n2, s1, s2].all Char.isDigit &&
    validTimestamp
      ⟨((1000 * dv y1 + 100 * dv y2 + 10 * dv y3 + dv y4 : Nat) : Int),
        10 * dv m1 + dv m2, 10 * dv d1 + dv d2, 10 * dv h1 + dv h2,
        10 * dv n1 + dv n2, 10 * dv s1 + dv s2⟩
  | _ => false

/-- Exponent suffix of a Rust float literal: `(e|E) Sign? Digit+`, already past
the `e`/`E`; scales the mantissa by the decimal exponent. -/
def parseExp (m : Rat) (cs : List Char) : Option Rat :=
  let (neg, cs1) : Bool × List Char :=
    match cs with
    | '+' :: r => (false, r)
    | '-' :: r => (true, r)
    | r => (false, r)
  let (ds, cs2) := cs1.span Char.isDigit
  if ds.isEmpty ∨ ¬cs2.isEmpty then none
  else some (if neg then m / (10 : Rat) ^ digitsVal ds else m * (10 : Rat) ^ digitsVal ds)

/-- Model of Rust `f64::from_str` on finite inputs (the csv/serde float
deserialization): `Sign? (Digit+ | Digit+ . Digit* | Digit* . Digit+) Exp?`,
giving the exact decimal value as a rational. -/
def parseFloat? (s : String) : Option Rat :=
  let cs := s.toList
  let (sgn, cs1) : Rat × List Char :=
    match cs with
    | '+' :: r => (1, r)
    | '-' :: r => (-1, r)
    | r => (1, r)
  let (ip, cs2) := cs1.span Char.isDigit
  let (hasDot, fp, cs3) : Bool × List Char × List Char :=
    match cs2 with
    | '.' :: r =>
      let (f, r') := r.span Char.isDigit
      (true, f, r')
    | r => (false, [], r)
  if ip.isEmpty && (hasDot = false ∨ fp.isEmpty) then none
  else
    let mantissa : Rat :=
      sgn * ((digitsVal ip * 10 ^ fp.length + digitsVal fp : Nat) : Rat) /
        (10 : Rat) ^ fp.length
    match cs3 with
    | [] => some mantissa
    | 'e' :: r => parseExp mantissa r
    | 'E' :: r => parseExp mantissa r
    | _ => none

/-- `HistoricalData` (data_processor.rs): one row of the CSV file — the
timestamp text plus the five OHLCV numbers (field `open` is `open'` because
`open` is a Lean keyword). -/
structure HistoricalData where
  timestamp : String
  open' : Rat
  high : Rat
  low : Rat
  close : Rat
  volume : Rat
  deriving DecidableEq, Repr

/-- `CandleStick` (data_processor.rs): parsed timestamp plus the five OHLCV
numbers. -/
structure CandleStick where
  timestamp : Timestamp
  open' : Rat
  high : Rat
  low : Rat
  close : Rat
  volume : Rat
  deriving DecidableEq, Repr

/-- `DataProcessor` (data_processor.rs): holds the currently loaded data. -/
structure DataProcessor where
  data : List HistoricalData
  deriving DecidableEq, Repr

/-- `DataProcessor::new`. -/
def DataProcessor.new : DataProcessor := ⟨[]⟩

/-- `DataProcessor::get_data`. -/
def DataProcessor.get_data (p : DataProcessor) : List HistoricalData := p.data

/-- The loop body of `DataProcessor::to_candlesticks`: convert records in
order, stopping with the `anyhow` context `"Failed to parse timestamp"` at the
first record whose timestamp chrono rejects. -/
def toCandlesticksList : List HistoricalData → Except String (List CandleStick)
  | [] => .ok []
  | r :: rs =>
    match parseTimestamp r.timestamp with
    | none => .error "Failed to parse timestamp"
    | some t =>
      match toCandlesticksList rs with
      | .error e => .error e
      | .ok cs => .ok (⟨t, r.open', r.high, r.low, r.close, r.volume⟩ :: cs)

/-- `DataProcessor::to_candlesticks`: reads `self.data` only (`&self`). -/
def DataProcessor.to_candlesticks (p : DataProcessor) : Except String (List CandleStick) :=
  toCandlesticksList p.data

/-- The three literal sample records built by
`DataProcessor::generate_sample_data`. -/
def sampleData : List HistoricalData :=
  [⟨"2023-01-01 00:00:00", 100, 105, 95, 102, 1000⟩,
   ⟨"2023-01-02 00:00:00", 102, 108, 101, 106, 1200⟩,
   ⟨"2023-01-03 00:00:00", 106, 110, 104, 108, 1500⟩]

/-- `DataProcessor::generate_sample_data` (`&mut self`): stores the sample
records in `self.data` and also returns them; never fails. -/
def DataProcessor.generate_sample_data (_p : DataProcessor) :
    Except String (List HistoricalData) × DataProcessor :=
  (.ok sampleData, { data := sampleData })

/-- A delimited input file as the csv reader sees it
(`ReaderBuilder::new().has_headers(true)`): the header row and the data rows,
each a list of raw field strings. -/
structure CsvFile where
  header : List String
  rows : List (List String)

/-- The filesystem as `load_csv_data` observes it: each path either does not
exist (`none`) or holds a readable delimited file. -/
abbrev FS := String → Option CsvFile

/-- serde-by-name field access on one csv record: position of the (renamed)
struct field's column in the header, then that position in the row. -/
def getField (header row : List String) (name : String) : Option String :=
  (header.findIdx? (· == name)).bind fun i => row.get? i

/-- Deserializing one csv record into `HistoricalData`
(`rdr.deserialize()` together with `.context("Failed to deserialize CSV
record")` in `load_csv_data`): the record must have as many fields as the
header (csv's `UnequalLengths`), each of the six renamed struct fields must be
present in the header, and the five numeric fields must parse as floats.  All
failures surface with the single context string the code attaches. -/
def deserializeRecord (header row : List String) : Except String HistoricalData :=
  if row.length ≠ header.length then .error "Failed to deserialize CSV record"
  else
    match getField header row "Timestamp",
        (getField header row "Open").bind parseFloat?,
        (getField header row "High").bind parseFloat?,
        (getField header row "Low").bind parseFloat?,
        (getField header row "Close").bind parseFloat?,
        (getField header row "Volume").bind parseFloat? with
    | some ts, some o, some hi, some lo, some cl, some vo =>
      .ok ⟨ts, o, hi, lo, cl, vo⟩
    | _, _, _, _, _, _ => .error "Failed to deserialize CSV record"

/-- The record loop of `load_csv_data`: deserialize the rows in order into a
vector, stopping at the first failing row. -/
def deserializeAll (header : List String) :
    List (List String) → Except String (List HistoricalData)
  | [] => .ok []
  | row :: rest =>
    match deserializeRecord header row with
    | .error e => .error e
    | .ok r =>
      match deserializeAll header rest with
      | .error e => .error e
      | .ok rs => .ok (r :: rs)

/-- `DataProcessor::load_csv_data` (`&mut self`): if the path does not exist,
fall back to `generate_sample_data`; otherwise read and deserialize every row,
and only after the whole loop succeeded assign `self.data = data.clone()` and
return `Ok(data)` — on a row error the early `?` return leaves `self.data`
untouched. -/
def DataProcessor.load_csv_data (fs : FS) (p : DataProcessor) (file_path : String) :
    Except String (List HistoricalData) × DataProcessor :=
  match fs file_path with
  | none => p.generate_sample_data
  | some f =>
    match deserializeAll f.header f.rows with
    | .error e => (.error e, p)
    | .ok data => (.ok data, { data := data })

/-- The header this repository's CSV files use (the serde renames of
`HistoricalData`'s fields, in declaration order). -/
def canonicalHeader : List String :=
  ["Timestamp", "Open", "High", "Low", "Close", "Volume"]

/-- One emitted log line (`log::info!` / `log::debug!` / `log::warn!`). -/
inductive LogMsg where
  | info (msg : String)
  | debug (msg : String)
  | warn (msg : String)
  deriving DecidableEq, Repr

/-- Whether a warning was logged. -/
def hasWarning (logs : List LogMsg) : Bool :=
  logs.any fun m => match m with | .warn _ => true | _ => false

/-- `Plotter::simulate_plot_creation` (plotter.rs): logs a debug line, warns
iff the data is empty, and always returns `Ok(())`. -/
def simulate_plot_creation (data : List HistoricalData) :
    Except String Unit × List LogMsg :=
  (.ok (),
    .debug ("Simulating plot creation with " ++ toString data.length ++ " data points") ::
      (if data.isEmpty then [.warn "No data available for plotting"] else []))

/-- `Plotter::create_candlestick_plot` (plotter.rs): if the key
`"historical_data"` is present, log two info lines and run
`simulate_plot_creation` (propagating its result with `?`); if the key is
absent, do nothing.  Either way the function ends in `Ok(())`.  The `HashMap`
argument is modelled as an association list with first-match lookup. -/
def create_candlestick_plot (data_map : List (String × List HistoricalData))
    (output_dir : String) : Except String Unit × List LogMsg :=
  match data_map.lookup "historical_data" with
  | some data =>
    let infoLogs : List LogMsg :=
      [.info ("Creating candlestick plot for " ++ toString data.length ++ " data points"),
       .info ("Output directory: " ++ output_dir)]
    match simulate_plot_creation data with
    | (.ok _, logs2) => (.ok (), infoLogs ++ logs2)
    | (.error e, logs2) => (.error e, infoLogs ++ logs2)
  | none => (.ok (), [])

/-- The filesystem as the directory utilities observe it: which paths exist,
and whether `fs::create_dir_all` would succeed for a given path. -/
structure DirFS where
  pathExists : String → Bool
  createOk : String → Bool

/-- Record a newly created directory path as existing. -/
def DirFS.addDir (fs : DirFS) (p : String) : DirFS :=
  { fs with pathExists := fun q => q == p || fs.pathExists q }

/-- `file_utils::ensure_directory_exists` (utils.rs): if the path does not
exist, `fs::create_dir_all` is attempted — on failure the error carries the
context `"Failed to create directory: <path>"`, on success an info line is
logged; if the path already exists, only an info line is logged.  Returns the
result together with the new directory state and the log. -/
def ensure_directory_exists (fs : DirFS) (dir_path : String) :
    Except String Unit × DirFS × List LogMsg :=
  if fs.pathExists dir_path = false then
    if fs.createOk dir_path then
      (.ok (), fs.addDir dir_path, [.info ("Created directory: " ++ dir_path)])
    else
      (.error ("Failed to create directory: " ++ dir_path), fs, [])
  else
    (.ok (), fs, [.info ("Directory already exists: " ++ dir_path)])

/-- The record a well-formed canonical-header row deserializes to: the
timestamp text taken verbatim (no trimming, no conversion) and the five
numeric fields as the exact decimal values of their source text. -/
def rowRecord : List String → HistoricalData
  | [ts, o, hi, lo, cl, vo] =>
    ⟨ts, (parseFloat? o).getD 0, (parseFloat? hi).getD 0, (parseFloat? lo).getD 0,
      (parseFloat? cl).getD 0, (parseFloat? vo).getD 0⟩
  | _ => ⟨"", 0, 0, 0, 0, 0⟩

/-- A well-formed data row of a canonical-header file: exactly six fields,
the five numeric ones parsing as floats. -/
def wellFormedRow (row : List String) : Bool :=
  match row with
  | [_, o, hi, lo, cl, vo] =>
    (parseFloat? o).isSome && (parseFloat? hi).isSome && (parseFloat? lo).isSome &&
      (parseFloat? cl).isSome && (parseFloat? vo).isSome
  | _ => false

/-- Concrete two-row file from the spec's testable properties (§8), used as a
witness input. -/
def exampleCsvFile : CsvFile :=
  ⟨canonicalHeader,
    [["2023-01-01 00:00:00", "100.0", "105.0", "95.0", "102.0", "1000.0"],
     ["2023-01-02 00:00:00", "102.0", "108.0", "101.0", "106.0", "1200.0"]]⟩

/-- A filesystem holding only the example file at `"valid.csv"`. -/
def exampleFS : FS :=
  fun path => if path = "valid.csv" then some exampleCsvFile else none

/-! ## Claim C1: `to_candlesticks` on a fresh processor -/

/-- C1 counterexample: on a fresh `DataProcessor` (on which `load_csv_data`
was never called) `to_candlesticks` does not fail — the loop over the empty
`self.data` runs zero times and the call returns `Ok` with an empty vector. -/
theorem toCandlesticks_fresh_ok :
    DataProcessor.new.to_candlesticks = .ok [] := rfl

/-- C1 (amended): on any processor whose held dataset is empty — in
particular a fresh one, where no dataset has ever been loaded —
`to_candlesticks` succeeds and returns the empty sequence; the code performs
no loaded-dataset check. -/
theorem toCandlesticks_empty_data_ok (p : DataProcessor) (h : p.data = []) :
    p.to_candlesticks = .ok [] := by
  simp [DataProcessor.to_candlesticks, h, toCandlesticksList]

/-- C1 witness: the amended statement applied to the fresh processor. -/
theorem toCandlesticks_empty_data_ok_witness :
    DataProcessor.new.to_candlesticks = .ok [] :=
  toCandlesticks_empty_data_ok DataProcessor.new rfl

/-! ## Claim C2: `create_candlestick_plot` result and warning -/

/-- C2 counterexample: when the dataset named `"historical_data"` is absent
from the map, no warning is emitted (the code's `if let` takes no branch and
logs nothing at all), contradicting the claim that a warning is emitted
exactly when the named dataset is empty or absent. -/
theorem createPlot_absent_no_warning :
    List.lookup "historical_data" ([] : List (String × List HistoricalData)) = none ∧
    hasWarning (create_candlestick_plot [] "output").2 = false :=
  ⟨rfl, rfl⟩

/-- C2 (amended): for every input map and output-directory string,
`create_candlestick_plot` returns `Ok`, and it emits a warning exactly when
the dataset named `"historical_data"` is present in the map and empty (when
the key is absent, nothing is logged). -/
theorem createPlot_ok_and_warn_iff (data_map : List (String × List HistoricalData))
    (output_dir : String) :
    (create_candlestick_plot data_map output_dir).1 = .ok () ∧
    (hasWarning (create_candlestick_plot data_map output_dir).2 = true ↔
      data_map.lookup "historical_data" = some []) := by
  cases hl : data_map.lookup "historical_data" with
  | none => simp [create_candlestick_plot, hl, hasWarning]
  | some data =>
    cases data with
    | nil => simp [create_candlestick_plot, hl, simulate_plot_creation, hasWarning]
    | cons a as => simp [create_candlestick_plot, hl, simulate_plot_creation, hasWarning]

/-! ## Claim C7: the sample generator -/

/-- C7: `generate_sample_data` never fails and, independently of the prior
processor state, returns exactly the three literal records of the source, in
order. -/
theorem generate_sample_data_spec (p : DataProcessor) :
    p.generate_sample_data = (.ok sampleData, { data := sampleData }) ∧
    sampleData =
      [⟨"2023-01-01 00:00:00", 100, 105, 95, 102, 1000⟩,
       ⟨"2023-01-02 00:00:00", 102, 108, 101, 106, 1200⟩,
       ⟨"2023-01-03 00:00:00", 106, 110, 104, 108, 1500⟩] ∧
    sampleData.length = 3 :=
  ⟨rfl, rfl, rfl⟩

/-! ## Claim C9: idempotent directory creation -/

/-- C9: if the target output directory already exists,
`ensure_directory_exists` returns `Ok`, leaves the directory state unchanged,
and only logs an informational line — no error is raised. -/
theorem ensure_directory_exists_idempotent (fs : DirFS) (dir_path : String)
    (h : fs.pathExists dir_path = true) :
    ensure_directory_exists fs dir_path =
      (.ok (), fs, [.info ("Directory already exists: " ++ dir_path)]) := by
  simp [ensure_directory_exists, h]

/-- C9 witness: an already-existing directory on a filesystem whose
`create_dir_all` would fail — success nevertheless. -/
theorem ensure_directory_exists_idempotent_witness :
    (DirFS.mk (fun _ => true) (fun _ => false)).pathExists "output" = true ∧
    ensure_directory_exists (DirFS.mk (fun _ => true) (fun _ => false)) "output" =
      (.ok (), DirFS.mk (fun _ => true) (fun _ => false),
        [.info ("Directory already exists: " ++ "output")]) :=
  ⟨rfl, ensure_directory_exists_idempotent _ _ rfl⟩

/-! ## Claim C6: missing file falls back to the sample set -/

/-- C6: when the path does not refer to an existing file, `load_csv_data`
succeeds (no error) and afterwards the held dataset — what `get_data`
returns — is exactly the 3-row generated sample set. -/
theorem load_missing_file_sample (fs : FS) (p : DataProcessor) (file_path : String)
    (h : fs file_path = none) :
    p.load_csv_data fs file_path = (.ok sampleData, { data := sampleData }) ∧
    (p.load_csv_data fs file_path).2.get_data =
      [⟨"2023-01-01 00:00:00", 100, 105, 95, 102, 1000⟩,
       ⟨"2023-01-02 00:00:00", 102, 108, 101, 106, 1200⟩,
       ⟨"2023-01-03 00:00:00", 106, 110, 104, 108, 1500⟩] := by
  constructor
  · simp [DataProcessor.load_csv_data, h, DataProcessor.generate_sample_data]
  · simp [DataProcessor.load_csv_data, h, DataProcessor.generate_sample_data,
      DataProcessor.get_data, sampleData]

/-- C6 witness: loading `"nonexistent.csv"` on an empty filesystem. -/
theorem load_missing_file_sample_witness :
    ((fun _ => none : FS) "nonexistent.csv" = none) ∧
    (DataProcessor.new.load_csv_data (fun _ => none) "nonexistent.csv" =
        (.ok sampleData, { data := sampleData }) ∧
      (DataProcessor.new.load_csv_data (fun _ => none) "nonexistent.csv").2.get_data =
        [⟨"2023-01-01 00:00:00", 100, 105, 95, 102, 1000⟩,
         ⟨"2023-01-02 00:00:00", 102, 108, 101, 106, 1200⟩,
         ⟨"2023-01-03 00:00:00", 106, 110, 104, 108, 1500⟩]) :=
  ⟨rfl, load_missing_file_sample (fun _ => none) DataProcessor.new "nonexistent.csv" rfl⟩

/-! ## Claim C3: a successful load replaces the held dataset -/

/-- C3: for every filesystem, prior state and path, if `load_csv_data`
returns `Ok` with some sequence, then the processor's held dataset afterwards
(`get_data`) is exactly that returned sequence — both the file branch and the
sample-generator fallback store the value they return. -/
theorem load_replaces_and_returns (fs : FS) (p : DataProcessor) (file_path : String)
    (xs : List HistoricalData)
    (h : (p.load_csv_data fs file_path).1 = .ok xs) :
    (p.load_csv_data fs file_path).2.get_data = xs := by
  cases hfs : fs file_path with
  | none =>
    simp [DataProcessor.load_csv_data, hfs, DataProcessor.generate_sample_data,
      DataProcessor.get_data] at h ⊢
    exact h
  | some f =>
    cases hds : deserializeAll f.header f.rows with
    | error e => simp [DataProcessor.load_csv_data, hfs, hds] at h
    | ok data =>
      simp [DataProcessor.load_csv_data, hfs, hds, DataProcessor.get_data] at h ⊢
      exact h

/-- C3 witness: the fallback branch at a concrete input; the returned sample
sequence equals the held dataset afterwards. -/
theorem load_replaces_and_returns_witness :
    (DataProcessor.new.load_csv_data (fun _ => none) "data.csv").1 = .ok sampleData ∧
    (DataProcessor.new.load_csv_data (fun _ => none) "data.csv").2.get_data = sampleData :=
  ⟨rfl, load_replaces_and_returns (fun _ => none) DataProcessor.new "data.csv" sampleData rfl⟩

/-! ## Claim C10: load is atomic on row errors -/

/-- Helper for C10: if some row fails to deserialize, the whole row loop
fails. -/
theorem deserializeAll_error_of_mem (header : List String) (rows : List (List String))
    (row : List String) (e : String) (hmem : row ∈ rows)
    (herr : deserializeRecord header row = .error e) :
    ∃ e', deserializeAll header rows = .error e' := by
  induction rows with
  | nil => cases hmem
  | cons r rs ih =>
    cases hmem with
    | head => exact ⟨e, by simp [deserializeAll, herr]⟩
    | tail _ hm =>
      cases hdr : deserializeRecord header r with
      | error e2 => exact ⟨e2, by simp [deserializeAll, hdr]⟩
      | ok rr =>
        obtain ⟨e', he'⟩ := ih hm
        exact ⟨e', by simp [deserializeAll, hdr, he']⟩

/-- C10: if the file exists and some row of it fails to deserialize,
`load_csv_data` returns an error and the processor state is exactly the state
before the call — `self.data` is assigned only after every row has
deserialized successfully. -/
theorem load_atomic_on_row_error (fs : FS) (p : DataProcessor) (file_path : String)
    (f : CsvFile) (row : List String) (e : String)
    (hfs : fs file_path = some f) (hmem : row ∈ f.rows)
    (herr : deserializeRecord f.header row = .error e) :
    ∃ e', p.load_csv_data fs file_path = (.error e', p) := by
  obtain ⟨e', he'⟩ := deserializeAll_error_of_mem f.header f.rows row e hmem herr
  exact ⟨e', by simp [DataProcessor.load_csv_data, hfs, he']⟩

/-- C10 witness: a file with one row whose `Open` field is not numeric; a
processor already holding the sample data keeps it unchanged. -/
theorem load_atomic_on_row_error_witness :
    ((fun _ => some (CsvFile.mk canonicalHeader
        [["2023-01-01 00:00:00", "abc", "105.0", "95.0", "102.0", "1000.0"]]) : FS)
      "bad.csv" = some (CsvFile.mk canonicalHeader
        [["2023-01-01 00:00:00", "abc", "105.0", "95.0", "102.0", "1000.0"]])) ∧
    ["2023-01-01 00:00:00", "abc", "105.0", "95.0", "102.0", "1000.0"] ∈
      [["2023-01-01 00:00:00", "abc", "105.0", "95.0", "102.0", "1000.0"]] ∧
    deserializeRecord canonicalHeader
      ["2023-01-01 00:00:00", "abc", "105.0", "95.0", "102.0", "1000.0"] =
      .error "Failed to deserialize CSV record" ∧
    ∃ e', (DataProcessor.mk sampleData).load_csv_data
        (fun _ => some (CsvFile.mk canonicalHeader
          [["2023-01-01 00:00:00", "abc", "105.0", "95.0", "102.0", "1000.0"]]))
        "bad.csv" = (.error e', DataProcessor.mk sampleData) :=
  ⟨rfl, List.Mem.head _, rfl,
    load_atomic_on_row_error _ (DataProcessor.mk sampleData) "bad.csv" _ _
      "Failed to deserialize CSV record" rfl (List.Mem.head _) rfl⟩

/-! ## Claim C5: malformed timestamps -/

/-- Helper for C5: if any held record's timestamp is rejected by the chrono
model, the whole conversion fails with the fixed context string. -/
theorem toCandlesticksList_error_of_bad (rs : List HistoricalData) (r : HistoricalData)
    (hmem : r ∈ rs) (hbad : parseTimestamp r.timestamp = none) :
    toCandlesticksList rs = .error "Failed to parse timestamp" := by
  induction rs with
  | nil => cases hmem
  | cons a as ih =>
    cases hmem with
    | head => simp [toCandlesticksList, hbad]
    | tail _ hm =>
      cases ha : parseTimestamp a.timestamp with
      | none => simp [toCandlesticksList, ha]
      | some t => simp [toCandlesticksList, ha, ih hm]

/-- C5 counterexample: `"2023-1-01 00:00:00"` deviates from the exact pattern
`YYYY-MM-DD HH:MM:SS` (the month has a single digit) yet conversion succeeds,
because chrono's numeric items accept between 1 and `width` digits; so not
every deviation from the exact pattern fails.  Moreover, the error carried by
a genuinely rejected timestamp is the fixed context string
`"Failed to parse timestamp"`: the two cited malformed inputs
(`2023/01/01 00:00:00` and `2023-01-01`) produce identical errors, so the
error does not identify the malformed value. -/
theorem timestamp_lenient_cex :
    matchesExactCanonicalPattern "2023-1-01 00:00:00" = false ∧
    (DataProcessor.mk [⟨"2023-1-01 00:00:00", 100, 105, 95, 102, 1000⟩]).to_candlesticks =
      .ok [⟨⟨2023, 1, 1, 0, 0, 0⟩, 100, 105, 95, 102, 1000⟩] ∧
    (DataProcessor.mk [⟨"2023/01/01 00:00:00", 100, 105, 95, 102, 1000⟩]).to_candlesticks =
      .error "Failed to parse timestamp" ∧
    (DataProcessor.mk [⟨"2023-01-01", 100, 105, 95, 102, 1000⟩]).to_candlesticks =
      .error "Failed to parse timestamp" := by
  refine ⟨by decide, rfl, rfl, rfl⟩

/-- C5 (amended): if any held record's timestamp is rejected by the format
parser — which is the case for both cited examples, `2023/01/01 00:00:00` and
`2023-01-01` — conversion fails, with the fixed error context
`"Failed to parse timestamp"` that does not include the malformed value; the
parser however accepts some deviations from the exact canonical pattern
(components of 1 digit, flexible whitespace), so not every such deviation
fails. -/
theorem toCandlesticks_bad_timestamp_error (p : DataProcessor) (r : HistoricalData)
    (hmem : r ∈ p.data) (hbad : parseTimestamp r.timestamp = none) :
    p.to_candlesticks = .error "Failed to parse timestamp" :=
  toCandlesticksList_error_of_bad p.data r hmem hbad

/-- C5 witness: a timestamp with an out-of-range month makes conversion
fail. -/
theorem toCandlesticks_bad_timestamp_error_witness :
    (⟨"2023-13-01 00:00:00", 1, 1, 1, 1, 1⟩ : HistoricalData) ∈
      (DataProcessor.mk [⟨"2023-13-01 00:00:00", 1, 1, 1, 1, 1⟩]).data ∧
    parseTimestamp "2023-13-01 00:00:00" = none ∧
    (DataProcessor.mk [⟨"2023-13-01 00:00:00", 1, 1, 1, 1, 1⟩]).to_candlesticks =
      .error "Failed to parse timestamp" :=
  ⟨List.Mem.head _, rfl,
    toCandlesticks_bad_timestamp_error (DataProcessor.mk [⟨"2023-13-01 00:00:00", 1, 1, 1, 1, 1⟩])
      ⟨"2023-13-01 00:00:00", 1, 1, 1, 1, 1⟩ (List.Mem.head _) rfl⟩

/-! ## Claim C4: canonical timestamps convert losslessly

Character- and scanner-level lemmas showing that a strictly canonical
timestamp is accepted by the chrono parser model. -/

/-- A decimal digit is not whitespace. -/
theorem digit_not_ws (c : Char) (h : c.isDigit = true) : c.isWhitespace = false := by
  cases hw : c.isWhitespace with
  | false => rfl
  | true =>
    exfalso
    have h' : ((c = ' ' ∨ c = '\t') ∨ c = '\x0d') ∨ c = '\n' := by
      simpa [Char.isWhitespace] using hw
    rcases h' with ((rfl | rfl) | rfl) | rfl <;> exact absurd h (by decide)

/-- Trimming does nothing in front of a digit. -/
theorem trimLeft_cons_digit (c : Char) (cs : List Char) (h : c.isDigit = true) :
    trimLeft (c :: cs) = c :: cs := by
  simp [trimLeft, List.dropWhile_cons, digit_not_ws c h]

/-- Trimming consumes a leading space. -/
theorem trimLeft_space (cs : List Char) : trimLeft (' ' :: cs) = trimLeft cs := rfl

/-- A literal matches its own character. -/
theorem expectChar_cons_self (c : Char) (xs : List Char) :
    expectChar c (c :: xs) = some xs := by
  simp [expectChar]

/-- Taking exactly as many digits as are present consumes them all. -/
theorem takeDigits_exact (ds rest : List Char) (h : ds.all Char.isDigit = true) :
    takeDigits ds.length (ds ++ rest) = (ds, rest) := by
  induction ds with
  | nil => simp [takeDigits]
  | cons c cs ih =>
    simp only [List.all_cons, Bool.and_eq_true] at h
    simp [takeDigits, h.1, ih h.2]

/-- `scanNumber` at the exact digit count. -/
theorem scanNumber_exact (w : Nat) (c : Char) (cs rest : List Char)
    (h : (c :: cs).all Char.isDigit = true) (hw : (c :: cs).length = w) :
    scanNumber w ((c :: cs) ++ rest) = some (digitsVal (c :: cs), rest) := by
  subst hw
  have ht := takeDigits_exact (c :: cs) rest h
  simp only [List.length_cons, List.cons_append] at ht
  simp [scanNumber, ht]

/-- Value of a two-digit string. -/
theorem digitsVal_pair (a b : Char) : digitsVal [a, b] = 10 * dv a + dv b := by
  simp only [digitsVal, List.foldl, dv]
  omega

/-- Value of a four-digit string. -/
theorem digitsVal_quad (a b c d : Char) :
    digitsVal [a, b, c, d] = 1000 * dv a + 100 * dv b + 10 * dv c + dv d := by
  simp only [digitsVal, List.foldl, dv]
  omega

/-- A two-digit numeric item on two digits. -/
theorem scanNum2_exact (a b : Char) (rest : List Char)
    (ha : a.isDigit = true) (hb : b.isDigit = true) :
    scanNum2 (a :: b :: rest) = some (10 * dv a + dv b, rest) := by
  have h2 := scanNumber_exact 2 a [b] rest (by simp [ha, hb]) rfl
  simp only [List.cons_append, List.nil_append] at h2
  rw [scanNum2, trimLeft_cons_digit a _ ha, h2, digitsVal_pair]

/-- The year item on four digits (no sign, four digits taken). -/
theorem scanYear_exact (a b c d : Char) (rest : List Char)
    (ha : a.isDigit = true) (hb : b.isDigit = true)
    (hc : c.isDigit = true) (hd : d.isDigit = true) :
    scanYear (a :: b :: c :: d :: rest) =
      some (((1000 * dv a + 100 * dv b + 10 * dv c + dv d : Nat) : Int), rest) := by
  have h4 := scanNumber_exact 4 a [b, c, d] rest (by simp [ha, hb, hc, hd]) rfl
  simp only [List.cons_append, List.nil_append] at h4
  rw [scanYear, trimLeft_cons_digit a _ ha]
  have hna : a ≠ '-' := by rintro rfl; exact absurd ha (by decide)
  have hpa : a ≠ '+' := by rintro rfl; exact absurd ha (by decide)
  split
  · next r heq => exact absurd (List.cons.injEq .. ▸ heq).1 hna
  · next r heq => exact absurd (List.cons.injEq .. ▸ heq).1 hpa
  · rw [h4]
    simp [digitsVal_quad]

/-- A strictly canonical timestamp string is accepted by the chrono parser
model, with the evident field values. -/
theorem parseTimestamp_of_shape (s : String)
    (y1 y2 y3 y4 m1 m2 d1 d2 p1 p2 n1 n2 q1 q2 : Char)
    (hs : s.toList = [y1, y2, y3, y4, '-', m1, m2, '-', d1, d2, ' ',
      p1, p2, ':', n1, n2, ':', q1, q2])
    (hy1 : y1.isDigit = true) (hy2 : y2.isDigit = true)
    (hy3 : y3.isDigit = true) (hy4 : y4.isDigit = true)
    (hm1 : m1.isDigit = true) (hm2 : m2.isDigit = true)
    (hd1 : d1.isDigit = true) (hd2 : d2.isDigit = true)
    (hp1 : p1.isDigit = true) (hp2 : p2.isDigit = true)
    (hn1 : n1.isDigit = true) (hn2 : n2.isDigit = true)
    (hq1 : q1.isDigit = true) (hq2 : q2.isDigit = true)
    (hv : validTimestamp ⟨((1000 * dv y1 + 100 * dv y2 + 10 * dv y3 + dv y4 : Nat) : Int),
      10 * dv m1 + dv m2, 10 * dv d1 + dv d2, 10 * dv p1 + dv p2,
      10 * dv n1 + dv n2, 10 * dv q1 + dv q2⟩ = true) :
    parseTimestamp s =
      some ⟨((1000 * dv y1 + 100 * dv y2 + 10 * dv y3 + dv y4 : Nat) : Int),
        10 * dv m1 + dv m2, 10 * dv d1 + dv d2, 10 * dv p1 + dv p2,
        10 * dv n1 + dv n2, 10 * dv q1 + dv q2⟩ := by
  rw [parseTimestamp, hs]
  rw [scanYear_exact y1 y2 y3 y4 _ hy1 hy2 hy3 hy4]
  simp only [Option.bind_eq_bind, Option.some_bind, expectChar_cons_self,
    scanNum2_exact m1 m2 _ hm1 hm2, scanNum2_exact d1 d2 _ hd1 hd2,
    trimLeft_space, trimLeft_cons_digit p1 _ hp1,
    scanNum2_exact p1 p2 _ hp1 hp2, scanNum2_exact n1 n2 _ hn1 hn2,
    scanNum2_exact q1 q2 _ hq1 hq2, List.isEmpty_nil, if_true, hv]

/-- A string matching the spec's exact canonical pattern parses. -/
theorem parseTimestamp_of_canonical (s : String)
    (h : matchesExactCanonicalPattern s = true) :
    ∃ t, parseTimestamp s = some t := by
  rw [matchesExactCanonicalPattern] at h
  split at h
  · next y1 y2 y3 y4 m1 m2 d1 d2 p1 p2 n1 n2 q1 q2 heq =>
    rw [Bool.and_eq_true] at h
    obtain ⟨hall, hv⟩ := h
    simp only [List.all_cons, List.all_nil, Bool.and_eq_true, and_true] at hall
    obtain ⟨hy1, hy2, hy3, hy4, hm1, hm2, hd1, hd2, hp1, hp2, hn1, hn2, hq1, hq2⟩ := hall
    exact ⟨_, parseTimestamp_of_shape s y1 y2 y3 y4 m1 m2 d1 d2 p1 p2 n1 n2 q1 q2 heq
      hy1 hy2 hy3 hy4 hm1 hm2 hd1 hd2 hp1 hp2 hn1 hn2 hq1 hq2 hv⟩
  · exact absurd h (by simp)

/-- Helper for C4: converting a list of canonically-timestamped records
succeeds, preserving length, order and every numeric field. -/
theorem toCandlesticksList_canonical (rs : List HistoricalData)
    (h : ∀ r ∈ rs, matchesExactCanonicalPattern r.timestamp = true) :
    ∃ cs, toCandlesticksList rs = .ok cs ∧ cs.length = rs.length ∧
      cs.map CandleStick.open' = rs.map HistoricalData.open' ∧
      cs.map CandleStick.high = rs.map HistoricalData.high ∧
      cs.map CandleStick.low = rs.map HistoricalData.low ∧
      cs.map CandleStick.close = rs.map HistoricalData.close ∧
      cs.map CandleStick.volume = rs.map HistoricalData.volume := by
  induction rs with
  | nil => exact ⟨[], rfl, rfl, rfl, rfl, rfl, rfl, rfl⟩
  | cons r rest ih =>
    obtain ⟨t, ht⟩ := parseTimestamp_of_canonical r.timestamp (h r (List.Mem.head _))
    obtain ⟨cs, hcs, hlen, ho, hh, hl, hc, hvv⟩ := ih fun x hx => h x (List.Mem.tail _ hx)
    refine ⟨⟨t, r.open', r.high, r.low, r.close, r.volume⟩ :: cs, ?_, ?_, ?_, ?_, ?_, ?_, ?_⟩
    · simp [toCandlesticksList, ht, hcs]
    · simp [hlen]
    · simp [ho]
    · simp [hh]
    · simp [hl]
    · simp [hc]
    · simp [hvv]

/-- C4: if every held record's timestamp matches the exact canonical pattern,
`to_candlesticks` succeeds and yields a sequence of the same length in the
same order whose open/high/low/close/volume fields are exactly the source
records' fields. -/
theorem toCandlesticks_canonical_preserves (p : DataProcessor)
    (h : ∀ r ∈ p.data, matchesExactCanonicalPattern r.timestamp = true) :
    ∃ cs, p.to_candlesticks = .ok cs ∧ cs.length = p.data.length ∧
      cs.map CandleStick.open' = p.data.map HistoricalData.open' ∧
      cs.map CandleStick.high = p.data.map HistoricalData.high ∧
      cs.map CandleStick.low = p.data.map HistoricalData.low ∧
      cs.map CandleStick.close = p.data.map HistoricalData.close ∧
      cs.map CandleStick.volume = p.data.map HistoricalData.volume :=
  toCandlesticksList_canonical p.data h

/-- C4 witness: the sample dataset has canonical timestamps and converts
losslessly. -/
theorem toCandlesticks_canonical_preserves_witness :
    (∀ r ∈ (DataProcessor.mk sampleData).data,
      matchesExactCanonicalPattern r.timestamp = true) ∧
    (∃ cs, (DataProcessor.mk sampleData).to_candlesticks = .ok cs ∧
      cs.length = (DataProcessor.mk sampleData).data.length ∧
      cs.map CandleStick.open' = (DataProcessor.mk sampleData).data.map HistoricalData.open' ∧
      cs.map CandleStick.high = (DataProcessor.mk sampleData).data.map HistoricalData.high ∧
      cs.map CandleStick.low = (DataProcessor.mk sampleData).data.map HistoricalData.low ∧
      cs.map CandleStick.close = (DataProcessor.mk sampleData).data.map HistoricalData.close ∧
      cs.map CandleStick.volume = (DataProcessor.mk sampleData).data.map HistoricalData.volume) :=
  ⟨by decide, toCandlesticks_canonical_preserves (DataProcessor.mk sampleData) (by decide)⟩

/-! ## Claim C8: well-formed delimited files parse losslessly -/

/-- Helper for C8: a well-formed row under the canonical header deserializes
to exactly its `rowRecord`. -/
theorem deserializeRecord_wellFormed (row : List String) (h : wellFormedRow row = true) :
    deserializeRecord canonicalHeader row = .ok (rowRecord row) := by
  unfold wellFormedRow at h
  split at h
  · next ts o hi lo cl vo =>
    simp only [Bool.and_eq_true] at h
    obtain ⟨⟨⟨⟨h1, h2⟩, h3⟩, h4⟩, h5⟩ := h
    obtain ⟨a, ha⟩ := Option.isSome_iff_exists.mp h1
    obtain ⟨b, hb⟩ := Option.isSome_iff_exists.mp h2
    obtain ⟨c, hc⟩ := Option.isSome_iff_exists.mp h3
    obtain ⟨d, hd⟩ := Option.isSome_iff_exists.mp h4
    obtain ⟨e, he⟩ := Option.isSome_iff_exists.mp h5
    simp [deserializeRecord, getField, canonicalHeader, rowRecord, List.findIdx?,
      ha, hb, hc, hd, he]
  · exact absurd h (by simp)

/-- Helper for C8: the row loop on well-formed rows returns all their records
in order. -/
theorem deserializeAll_wellFormed (rows : List (List String))
    (h : ∀ row ∈ rows, wellFormedRow row = true) :
    deserializeAll canonicalHeader rows = .ok (rows.map rowRecord) := by
  induction rows with
  | nil => rfl
  | cons r rs ih =>
    simp [deserializeAll, deserializeRecord_wellFormed r (h r (List.Mem.head _)),
      ih fun x hx => h x (List.Mem.tail _ hx)]

/-- C8: loading an existing well-formed canonical-header file with N data
rows succeeds and produces exactly N records in file order; each record's
timestamp is the raw source text unmodified and each numeric field is the
exact decimal value of its source text. -/
theorem load_wellformed_csv_parses (fs : FS) (p : DataProcessor) (file_path : String)
    (f : CsvFile) (hfs : fs file_path = some f) (hhd : f.header = canonicalHeader)
    (hrows : ∀ row ∈ f.rows, wellFormedRow row = true) :
    p.load_csv_data fs file_path =
      (.ok (f.rows.map rowRecord), { data := f.rows.map rowRecord }) ∧
    (f.rows.map rowRecord).length = f.rows.length ∧
    ∀ row ∈ f.rows, ∀ ts o hi lo cl vo : String, row = [ts, o, hi, lo, cl, vo] →
      rowRecord row =
        ⟨ts, (parseFloat? o).getD 0, (parseFloat? hi).getD 0, (parseFloat? lo).getD 0,
          (parseFloat? cl).getD 0, (parseFloat? vo).getD 0⟩ := by
  refine ⟨?_, by simp, ?_⟩
  · simp [DataProcessor.load_csv_data, hfs, hhd, deserializeAll_wellFormed f.rows hrows]
  · rintro row - ts o hi lo cl vo rfl
    rfl

/-- C8 witness: the spec's two-row example file loads to its two records. -/
theorem load_wellformed_csv_parses_witness :
    (exampleFS "valid.csv" = some exampleCsvFile ∧
      exampleCsvFile.header = canonicalHeader ∧
      ∀ row ∈ exampleCsvFile.rows, wellFormedRow row = true) ∧
    (DataProcessor.new.load_csv_data exampleFS "valid.csv" =
        (.ok (exampleCsvFile.rows.map rowRecord),
          { data := exampleCsvFile.rows.map rowRecord }) ∧
      (exampleCsvFile.rows.map rowRecord).length = exampleCsvFile.rows.length ∧
      ∀ row ∈ exampleCsvFile.rows, ∀ ts o hi lo cl vo : String,
        row = [ts, o, hi, lo, cl, vo] →
        rowRecord row =
          ⟨ts, (parseFloat? o).getD 0, (parseFloat? hi).getD 0, (parseFloat? lo).getD 0,
            (parseFloat? cl).getD 0, (parseFloat? vo).getD 0⟩) :=
  ⟨⟨rfl, rfl, by decide⟩,
    load_wellformed_csv_parses exampleFS DataProcessor.new "valid.csv" exampleCsvFile
      rfl rfl (by decide)⟩

end CandleStickPlotter
